import Mathlib

/-!
Verification of the static-analysis core (`agent/code_tools.py`, `agent/analyzer.py`)

Shallow embedding of the code-analysis pipeline of the repository:
language detection, import/function extraction with structural-parse fallback,
syntax validation, complexity estimation, security scanning, single-file
analysis and directory aggregation.

The external Python parser (`ast.parse`) and the external text generator
(`CodeAssistant.generate_response`) are modelled as explicit parameters:
a parse function `String → ParseOutcome` and a generator
`String → Except String String` (where `Except.error` models a raised
exception).  Python dictionaries are modelled as ordered association lists
`List (String × RVal)`; Python floats arising from the single division
`comment_lines / max(code_lines, 1)` are modelled as rationals.
-/

set_option autoImplicit false

/-! String utilities (models of the Python `str` methods used by the code) -/

/-- Python whitespace characters recognised by `str.strip()` (ASCII range). -/
def isPySpace (c : Char) : Bool :=
  c = ' ' || c = '\t' || c = '\n' || c = '\r' || c = Char.ofNat 11 || c = Char.ofNat 12

/-- Model of `str.strip()`: drop leading and trailing whitespace. -/
def pyStrip (s : String) : String :=
  String.mk (((s.data.dropWhile isPySpace).reverse.dropWhile isPySpace).reverse)

/-- Helper for `pySplitChar`: split a character list at each separator. -/
def splitCharAux (sep : Char) : List Char → List Char → List String
  | acc, [] => [String.mk acc.reverse]
  | acc, c :: rest =>
    if c = sep then String.mk acc.reverse :: splitCharAux sep [] rest
    else splitCharAux sep (c :: acc) rest

/-- Model of Python `str.split(sep)` for a one-character separator:
`"".split(c) = [""]`, a trailing separator yields a trailing empty segment. -/
def pySplitChar (sep : Char) (s : String) : List String :=
  splitCharAux sep [] s.data

/-- Model of `code.split('\n')` as used throughout the analyzer. -/
def pySplitLines (s : String) : List String :=
  pySplitChar '\n' s

/-- Model of `', '.join(names)` (`str.join` with separator `", "`). -/
def joinComma : List String → String
  | [] => ""
  | [x] => x
  | x :: rest => x ++ ", " ++ joinComma rest

/-- Lower-casing of a string (ASCII), modelling `str.lower()` on extensions. -/
def strLower (s : String) : String :=
  String.mk (s.data.map Char.toLower)

/-- Is `pre` a prefix of `l`? (helper for the substring test). -/
def listStartsWith : List Char → List Char → Bool
  | _, [] => true
  | [], _ :: _ => false
  | c :: cs, p :: ps => c = p && listStartsWith cs ps

/-- Does `hay` contain `needle` as a contiguous sublist? -/
def listContainsSub (needle : List Char) : List Char → Bool
  | [] => listStartsWith [] needle
  | c :: cs => listStartsWith (c :: cs) needle || listContainsSub needle cs

/-- Model of the Python containment test `needle in hay` on strings. -/
def strContains (hay needle : String) : Bool :=
  listContainsSub needle.data hay.data

/-- A line "starts with `'#'`" in the sense of `str.startswith('#')`. -/
def startsWithHash (s : String) : Bool :=
  match s.data with
  | c :: _ => c = '#'
  | [] => false

/-! Path handling (models of `pathlib.Path.suffix` and `.name`) -/

/-- Index of the last `'.'` in a character list, if any (model of `str.rfind('.')`). -/
def rfindDotIdx : List Char → Option Nat
  | [] => none
  | c :: rest =>
    match rfindDotIdx rest with
    | some i => some (i + 1)
    | none => if c = '.' then some 0 else none

/-- Model of `Path(p).name`: the last nonempty `/`-separated component. -/
def pathName (p : String) : String :=
  (((pySplitChar '/' p).filter (fun s => !(s == ""))).getLastD "")

/-- Model of `Path(p).suffix` (pathlib): the final extension including the
dot, and `""` when the last dot is absent, leading, or trailing. -/
def pathSuffix (p : String) : String :=
  let name := pathName p
  let cs := name.data
  match rfindDotIdx cs with
  | some i => if 0 < i && i < cs.length - 1 then String.mk (cs.drop i) else ""
  | none => ""

/-! Language table (`CodeTools.language_extensions`, `code_tools.py` lines 14-35) -/

def language_extensions : List (String × String) :=
  [(".py", "python"), (".js", "javascript"), (".ts", "typescript"),
   (".java", "java"), (".cpp", "cpp"), (".c", "c"), (".cs", "csharp"),
   (".php", "php"), (".rb", "ruby"), (".go", "go"), (".rs", "rust"),
   (".swift", "swift"), (".kt", "kotlin"), (".scala", "scala"),
   (".html", "html"), (".css", "css"), (".sql", "sql"), (".sh", "bash"),
   (".r", "r"), (".m", "matlab")]

/-- Model of `CodeTools.detect_language` (`code_tools.py` lines 37-48): map the
lower-cased extension through the table, defaulting to `"text"`. -/
def detect_language (file_path : String) : String :=
  (List.lookup (strLower (pathSuffix file_path)) language_extensions).getD "text"

/-- Extension allow-list of `CodeAnalyzer.is_code_file` (`analyzer.py` lines 254-263). -/
def code_extensions : List String :=
  [".py", ".js", ".ts", ".java", ".cpp", ".c", ".cs", ".php",
   ".rb", ".go", ".rs", ".swift", ".kt", ".scala", ".html",
   ".css", ".sql", ".sh", ".r", ".m"]

/-- Model of `CodeAnalyzer.is_code_file`: lower-cased suffix is in the allow-list. -/
def is_code_file (file_path : String) : Bool :=
  code_extensions.contains (strLower (pathSuffix file_path))

/-! The Python AST fragment and the outcome of `ast.parse`

`ast.parse` is external (CPython).  We model the statement forms the
extractors inspect: `Import`, `ImportFrom`, `FunctionDef` (whose body can
recursively contain further statements) and an opaque `other` statement.
An `ast.parse` call either returns a tree, raises `SyntaxError` (the only
exception the extractors catch), or raises some other exception —
CPython's `ast.parse` can raise e.g. `RecursionError` on deeply nested
sources (a documented limitation of the `ast` module) or, on older
interpreters, `ValueError` for source containing null bytes. -/

inductive PyStmt : Type where
  /-- An `ast.Import` with its 1-based line and the `alias.name`s. -/
  | imprt (lineno : Nat) (names : List String) : PyStmt
  /-- An `ast.ImportFrom` with line, `module` (None for relative imports) and names. -/
  | importFrom (lineno : Nat) (module : Option String) (names : List String) : PyStmt
  /-- An `ast.FunctionDef`: line, name, positional parameter names (`args.args`),
  docstring as computed by `ast.get_docstring`, and the nested body. -/
  | funcDef (lineno : Nat) (name : String) (args : List String)
      (docstring : Option String) (body : List PyStmt) : PyStmt
  /-- Any other statement (no children relevant to extraction). -/
  | other (lineno : Nat) : PyStmt

structure PyModule : Type where
  body : List PyStmt

/-- Outcome of a call to the external parser `ast.parse`. -/
inductive ParseOutcome : Type where
  /-- The parse succeeded with this tree. -/
  | ok (tree : PyModule) : ParseOutcome
  /-- The parse raised `SyntaxError` with this message (`str(e)`). -/
  | synError (msg : String) : ParseOutcome
  /-- The parse raised an exception that is not a `SyntaxError`. -/
  | hardError (msg : String) : ParseOutcome

/-- Child statements enqueued by `ast.walk` below one statement (only a
`FunctionDef` body contains statements in this fragment). -/
def childStmts : PyStmt → List PyStmt
  | .funcDef _ _ _ _ body => body
  | _ => []

/-- Breadth-first traversal in level order, with explicit fuel.
`ast.walk` uses a FIFO queue, which yields exactly level order:
all statements of one nesting depth before any deeper statement. -/
def walkBFS : Nat → List PyStmt → List PyStmt
  | 0, _ => []
  | _ + 1, [] => []
  | fuel + 1, level => level ++ walkBFS fuel (level.flatMap childStmts)

mutual

/-- Number of statements in a statement, itself included (fuel for `walkBFS`). -/
def stmtCount : PyStmt → Nat
  | .funcDef _ _ _ _ body => 1 + stmtsCount body
  | _ => 1

/-- Number of statements in a statement list. -/
def stmtsCount : List PyStmt → Nat
  | [] => 0
  | s :: rest => stmtCount s + stmtsCount rest

end

/-- Model of `ast.walk(tree)` restricted to statements: the `Module` node
itself is neither an import nor a function definition, so only the
statement sequence matters.  The fuel bounds the number of levels; the
total number of statements plus one always suffices (each level is
strictly deeper than the previous one). -/
def walkModule (m : PyModule) : List PyStmt :=
  walkBFS (1 + stmtsCount m.body) m.body

/-! Import extraction (`code_tools.py` lines 50-106) -/

/-- The import strings contributed by one walked node
(`code_tools.py` lines 74-81). -/
def importsOfStmt : PyStmt → List String
  | .imprt _ names => names.map (fun n => "import " ++ n)
  | .importFrom _ module names =>
      ["from " ++ module.getD "" ++ " import " ++ joinComma names]
  | _ => []

/-- Structured branch of `_extract_python_imports`: walk the tree and
collect normalized import strings. -/
def importsOfTree (m : PyModule) : List String :=
  (walkModule m).flatMap importsOfStmt

/-- Word-character class `\w` of the Python `re` module, restricted to ASCII. -/
def isWordChar (c : Char) : Bool :=
  c.isAlphanum || c = '_'

/-- Tail `\s+(.+)` after a literal keyword: at least one whitespace
character, then at least one character matchable by `.` (anything but a
newline).  Since `\s` also matches `'\n'` while `.` does not, the tail
matches iff the first character is whitespace and some later character is
not a newline. -/
def matchSpacesThenAny : List Char → Bool
  | [] => false
  | c :: rest => isPySpace c && rest.any (fun x => !(x = '\n'))

/-- The branch `import\s+(.+)` of the fallback import regex, anchored at
the start (`re.match`). -/
def matchImportSimple (cs : List Char) : Bool :=
  listStartsWith cs "import".data && matchSpacesThenAny (cs.drop 6)

/-- Dotted-part loop `(\.\w+)*` of the module pattern `\w+(\.\w+)*`: consume
`.word` groups; a dot not followed by a word character fails the whole
pattern, because the following `\s+` cannot match `'.'`. -/
def afterDots (fuel : Nat) (cs : List Char) : Option (List Char) :=
  match fuel, cs with
  | 0, _ => none
  | f + 1, '.' :: r =>
    if (r.takeWhile isWordChar).isEmpty then none
    else afterDots f (r.dropWhile isWordChar)
  | _ + 1, r => some r

/-- The branch `from\s+(\w+(?:\.\w+)*)\s+import\s+(.+)` of the
fallback pattern (`code_tools.py` line 84), anchored at the start.  All the
character classes involved (`\s`, `\w`, literals) are pairwise disjoint at
each boundary, so greedy matching is deterministic. -/
def matchFromImport (cs : List Char) : Bool :=
  if listStartsWith cs "from".data then
    let r0 := cs.drop 4
    if (r0.takeWhile isPySpace).isEmpty then false
    else
      let r1 := r0.dropWhile isPySpace
      if (r1.takeWhile isWordChar).isEmpty then false
      else
        let r2 := r1.dropWhile isWordChar
        match afterDots (r2.length + 1) r2 with
        | none => false
        | some r3 =>
          if (r3.takeWhile isPySpace).isEmpty then false
          else
            let r4 := r3.dropWhile isPySpace
            listStartsWith r4 "import".data && matchSpacesThenAny (r4.drop 6)
  else false

/-- One line matches the fallback import pattern
`^(?:from\s+(\w+(?:\.\w+)*)\s+import\s+(.+)|import\s+(.+))`. -/
def matchImportLine (cs : List Char) : Bool :=
  matchFromImport cs || matchImportSimple cs

/-- Fallback branch of `_extract_python_imports` (lines 83-88): test each
stripped line against the anchored pattern and keep the stripped line. -/
def fallbackImports (code : String) : List String :=
  (pySplitLines code).filterMap (fun line =>
    let s := pyStrip line
    if matchImportLine s.data then some s else none)

/-- Model of `CodeTools._extract_python_imports` (`code_tools.py` lines 68-89):
walk the parsed tree; on `SyntaxError` fall back to the line patterns; any
other parser exception is *not* caught and propagates (`Except.error`). -/
def extractPythonImports (parse : String → ParseOutcome) (code : String) :
    Except String (List String) :=
  match parse code with
  | .ok t => .ok (importsOfTree t)
  | .synError _ => .ok (fallbackImports code)
  | .hardError e => .error e

/-! JavaScript/TypeScript import extraction (`code_tools.py` lines 91-106)

`_extract_js_imports` applies `re.findall` with five patterns in order and
concatenates all matches.  The character classes at every boundary of these
patterns are disjoint (whitespace vs. word characters vs. literals), so
greedy/lazy backtracking is deterministic and each pattern is modelled by a
direct scanning matcher returning the length of the match at a position.
`.` never matches a newline; `\s` does. -/

/-- Quote characters accepted by the class matching a string delimiter. -/
def isJsQuote (c : Char) : Bool :=
  c = Char.ofNat 39 || c = Char.ofNat 34

/-- Tail `['"][^'"]+['"];?` of the module-specifier part: an opening quote,
one or more non-quote characters, a closing quote, an optional semicolon.
Returns the number of characters consumed. -/
def jsQuotedTail : List Char → Option Nat
  | [] => none
  | q :: rest =>
    if isJsQuote q then
      let inner := rest.takeWhile (fun c => !isJsQuote c)
      if inner.isEmpty then none
      else
        match rest.drop inner.length with
        | q2 :: rest2 =>
          if isJsQuote q2 then
            match rest2 with
            | ';' :: _ => some (1 + inner.length + 1 + 1)
            | _ => some (1 + inner.length + 1)
          else none
        | [] => none
    else none

/-- Tail `\s+['"][^'"]+['"];?` placed after the literal `from`. -/
def jsFromTail (cs : List Char) : Option Nat :=
  let ws := cs.takeWhile isPySpace
  if ws.isEmpty then none
  else (jsQuotedTail (cs.drop ws.length)).map (fun n => ws.length + n)

/-- Lazy scan `.*?from\s+['"][^'"]+['"];?`: find the earliest `from` whose
tail matches, aborting at a newline (which `.` cannot match). -/
def jsScanFrom : List Char → Option Nat
  | [] => none
  | c :: rest =>
    if listStartsWith (c :: rest) "from".data then
      match jsFromTail ((c :: rest).drop 4) with
      | some n => some (4 + n)
      | none => if c = '\n' then none else (jsScanFrom rest).map (· + 1)
    else if c = '\n' then none
    else (jsScanFrom rest).map (· + 1)

/-- Matcher for `import\s+.*?from\s+['"][^'"]+['"];?` at one position. -/
def jsMatchImportFrom (cs : List Char) : Option Nat :=
  if listStartsWith cs "import".data then
    let r := cs.drop 6
    let ws := r.takeWhile isPySpace
    if ws.isEmpty then none
    else (jsScanFrom (r.drop ws.length)).map (fun n => 6 + ws.length + n)
  else none

/-- Matcher for `import\s+.*?;?` at one position: the lazy `.*?` matches
empty, so the match is the keyword, the greedy whitespace run, and an
optional immediately following semicolon. -/
def jsMatchImportBare (cs : List Char) : Option Nat :=
  if listStartsWith cs "import".data then
    let r := cs.drop 6
    let ws := r.takeWhile isPySpace
    if ws.isEmpty then none
    else
      match r.drop ws.length with
      | ';' :: _ => some (6 + ws.length + 1)
      | _ => some (6 + ws.length)
  else none

/-- Tail `['"][^'"]+['"]\);?` inside the `require(...)` call. -/
def jsQuotedTailParen : List Char → Option Nat
  | [] => none
  | q :: rest =>
    if isJsQuote q then
      let inner := rest.takeWhile (fun c => !isJsQuote c)
      if inner.isEmpty then none
      else
        match rest.drop inner.length with
        | q2 :: ')' :: rest2 =>
          if isJsQuote q2 then
            match rest2 with
            | ';' :: _ => some (1 + inner.length + 1 + 1 + 1)
            | _ => some (1 + inner.length + 1 + 1)
          else none
        | _ => none
    else none

/-- Tail `\s+require\s*\(['"][^'"]+['"]\);?` placed after the literal `=`. -/
def jsRequireTail (cs : List Char) : Option Nat :=
  let ws := cs.takeWhile isPySpace
  if ws.isEmpty then none
  else
    let r1 := cs.drop ws.length
    if listStartsWith r1 "require".data then
      let r2 := r1.drop 7
      let ws2 := r2.takeWhile isPySpace
      match r2.drop ws2.length with
      | '(' :: r3 =>
        match jsQuotedTailParen r3 with
        | some n => some (ws.length + 7 + ws2.length + 1 + n)
        | none => none
      | _ => none
    else none

/-- Lazy scan `.*?=` followed by the `require` tail, aborting at a newline. -/
def jsScanEq : List Char → Option Nat
  | [] => none
  | c :: rest =>
    if c = '=' then
      match jsRequireTail rest with
      | some n => some (1 + n)
      | none => (jsScanEq rest).map (· + 1)
    else if c = '\n' then none
    else (jsScanEq rest).map (· + 1)

/-- Matcher for `KW\s+.*?=\s+require\s*\(['"][^'"]+['"]\);?` at one
position, for a keyword `KW` in `const` / `let` / `var`. -/
def jsMatchRequire (kw : String) (cs : List Char) : Option Nat :=
  if listStartsWith cs kw.data then
    let r := cs.drop kw.data.length
    let ws := r.takeWhile isPySpace
    if ws.isEmpty then none
    else (jsScanEq (r.drop ws.length)).map (fun n => kw.data.length + ws.length + n)
  else none

/-- Model of `re.findall`: scan positions left to right; at a match of
length `n > 0` record it and resume after it, otherwise advance one
character (none of the patterns above can match the empty string at a
position where they match at all, but the guard mirrors `re`). -/
def findallAux (m : List Char → Option Nat) : Nat → List Char → List String
  | 0, _ => []
  | _ + 1, [] => []
  | fuel + 1, cs =>
    match m cs with
    | some n => String.mk (cs.take n) :: findallAux m fuel (cs.drop (max n 1))
    | none => findallAux m fuel (cs.drop 1)

def reFindall (m : List Char → Option Nat) (s : String) : List String :=
  findallAux m (s.data.length + 1) s.data

/-- Model of `CodeTools._extract_js_imports` (`code_tools.py` lines
91-106): all matches of the five patterns, in pattern order. -/
def extractJsImports (code : String) : List String :=
  reFindall jsMatchImportFrom code ++ reFindall jsMatchImportBare code ++
  reFindall (jsMatchRequire "const") code ++ reFindall (jsMatchRequire "let") code ++
  reFindall (jsMatchRequire "var") code

/-- Model of `CodeTools.extract_imports` (`code_tools.py` lines 50-66):
dispatch on the language tag; unsupported languages yield `[]`. -/
def extract_imports (parse : String → ParseOutcome) (code language : String) :
    Except String (List String) :=
  if language = "python" then extractPythonImports parse code
  else if language = "javascript" || language = "typescript" then .ok (extractJsImports code)
  else .ok []

/-! Function extraction (`code_tools.py` lines 108-149) -/

/-- One extracted function record (name, 1-based line, positional
parameter names, optional docstring). -/
structure PyFunc : Type where
  name : String
  line : Nat
  args : List String
  docstring : Option String
deriving Repr, DecidableEq

/-- The function records contributed by one walked node
(`code_tools.py` lines 130-136). -/
def funcsOfStmt : PyStmt → List PyFunc
  | .funcDef ln n args doc _ => [⟨n, ln, args, doc⟩]
  | _ => []

/-- Structured branch of `_find_python_functions`: walk the tree and
collect every `FunctionDef`. -/
def functionsOfTree (m : PyModule) : List PyFunc :=
  (walkModule m).flatMap funcsOfStmt

/-- Matcher for the fallback pattern `def\s+(\w+)\s*\(([^)]*)\):`
(`code_tools.py` line 139), anchored at the start of the stripped line;
returns the two capture groups (name, raw argument text). -/
def matchDefPattern (s : String) : Option (String × String) :=
  let cs := s.data
  if listStartsWith cs "def".data then
    let rest := cs.drop 3
    if (rest.takeWhile isPySpace).isEmpty then none
    else
      let r1 := rest.dropWhile isPySpace
      let name := r1.takeWhile isWordChar
      if name.isEmpty then none
      else
        match (r1.dropWhile isWordChar).dropWhile isPySpace with
        | '(' :: r3 =>
          let argsChars := r3.takeWhile (fun c => !(c = ')'))
          match r3.drop argsChars.length with
          | ')' :: ':' :: _ => some (String.mk name, String.mk argsChars)
          | _ => none
        | _ => none
  else none

/-- Argument-name post-processing of the fallback
(`[arg.strip() for arg in match.group(2).split(',') if arg.strip()]`). -/
def splitArgs (s : String) : List String :=
  ((pySplitChar ',' s).map pyStrip).filter (fun a => !(a == ""))

/-- Fallback branch of `_find_python_functions` (lines 138-148):
`enumerate(code.split('\n'), 1)`, testing each stripped line. -/
def fallbackFunctionsAux : Nat → List String → List PyFunc
  | _, [] => []
  | i, line :: rest =>
    (match matchDefPattern (pyStrip line) with
     | some g => [⟨g.1, i, splitArgs g.2, none⟩]
     | none => []) ++ fallbackFunctionsAux (i + 1) rest

def fallbackFunctions (code : String) : List PyFunc :=
  fallbackFunctionsAux 1 (pySplitLines code)

/-- Model of `CodeTools._find_python_functions` (`code_tools.py` lines
124-149): walk the parsed tree; on `SyntaxError` fall back to the line
pattern; any other parser exception propagates. -/
def findPythonFunctions (parse : String → ParseOutcome) (code : String) :
    Except String (List PyFunc) :=
  match parse code with
  | .ok t => .ok (functionsOfTree t)
  | .synError _ => .ok (fallbackFunctions code)
  | .hardError e => .error e

/-- Model of `CodeTools.find_functions` (`code_tools.py` lines 108-122):
only Python has a function extractor. -/
def find_functions (parse : String → ParseOutcome) (code language : String) :
    Except String (List PyFunc) :=
  if language = "python" then findPythonFunctions parse code else .ok []

/-! Syntax validation (`code_tools.py` lines 151-173) -/

/-- Model of `CodeTools.validate_syntax` together with
`_validate_python_syntax`: Python attempts the structural parse (catching
only `SyntaxError`); every other language is reported valid. -/
def validateSyntax (parse : String → ParseOutcome) (code language : String) :
    Except String (Bool × Option String) :=
  if language = "python" then
    match parse code with
    | .ok _ => .ok (true, none)
    | .synError m => .ok (false, some m)
    | .hardError e => .error e
  else .ok (true, none)

/-! Complexity estimation (`code_tools.py` lines 238-262) -/

structure ComplexityMetrics : Type where
  total_lines : Nat
  code_lines : Nat
  comment_lines : Nat
  function_count : Nat
  comment_ratio : ℚ
deriving Repr, DecidableEq

/-- The Boolean `line.strip() and not line.strip().startswith('#')`. -/
def isCodeLine (l : String) : Bool :=
  !(pyStrip l == "") && !startsWithHash (pyStrip l)

/-- The Boolean `line.strip().startswith('#')`. -/
def isCommentLine (l : String) : Bool :=
  startsWithHash (pyStrip l)

/-- Model of `CodeTools.estimate_complexity` (`code_tools.py` lines
238-262).  The division is Python float division, modelled exactly on the
rationals; the denominator `max(code_lines, 1)` is never zero. -/
def estimate_complexity (parse : String → ParseOutcome) (code language : String) :
    Except String ComplexityMetrics :=
  let lines := pySplitLines code
  let code_lines := (lines.filter isCodeLine).length
  let comment_lines := (lines.filter isCommentLine).length
  match find_functions parse code language with
  | .error e => .error e
  | .ok functions =>
    .ok ⟨lines.length, code_lines, comment_lines, functions.length,
         (comment_lines : ℚ) / (max code_lines 1 : ℚ)⟩

/-! Report values: Python dictionaries are ordered association lists from
string keys to these values. -/

inductive RVal : Type where
  | str (s : String)
  | nat (n : Nat)
  | bool (b : Bool)
  | pynone
  | strList (l : List String)
  | funcList (l : List PyFunc)
  | metrics (m : ComplexityMetrics)
deriving Repr, DecidableEq

/-- Model of `dict.get(k, default)` restricted to the value / a default. -/
def dictGet (d : List (String × RVal)) (k : String) : Option RVal :=
  List.lookup k d

def dictGetNat (d : List (String × RVal)) (k : String) (dflt : Nat) : Nat :=
  match dictGet d k with
  | some (.nat n) => n
  | _ => dflt

def dictGetStr (d : List (String × RVal)) (k : String) (dflt : String) : String :=
  match dictGet d k with
  | some (.str s) => s
  | _ => dflt

def dictGetBool (d : List (String × RVal)) (k : String) (dflt : Bool) : Bool :=
  match dictGet d k with
  | some (.bool b) => b
  | _ => dflt

/-! AI-assisted passes (`analyzer.py` lines 143-252).  The collaborator
`CodeAssistant.generate_response` is a parameter `gen`; `Except.error e`
models it raising an exception whose `str` is `e`. -/

def aiInsightsPrompt (language code : String) : String :=
  "Analyze this " ++ language ++ " code and provide insights:\n\n" ++ code ++
  "\n\nPlease provide:\n1. Code quality assessment\n2. Potential issues or bugs\n" ++
  "3. Performance considerations\n4. Best practices suggestions\n" ++
  "5. Overall architecture assessment\n\nBe concise but thorough."

def improvementPrompt (language code : String) : String :=
  "Review this " ++ language ++ " code and suggest specific improvements:\n\n" ++ code ++
  "\n\nFocus on:\n- Code structure and organization\n- Performance optimizations\n" ++
  "- Error handling\n- Readability improvements\n- Security considerations\n\n" ++
  "Provide concrete, actionable suggestions."

def documentationPrompt (language code : String) : String :=
  "Generate comprehensive documentation for this " ++ language ++ " code:\n\n" ++ code ++
  "\n\nInclude:\n- Module/class/function descriptions\n- Parameter documentation\n" ++
  "- Return value descriptions\n- Usage examples\n- Any important notes or warnings\n\n" ++
  "Format as markdown."

def securityPrompt (language code : String) : String :=
  "Analyze this " ++ language ++ " code for security vulnerabilities:\n\n" ++ code ++
  "\n\nLook for:\n- SQL injection risks\n- XSS vulnerabilities  \n- Command injection\n" ++
  "- Insecure random number generation\n- Hardcoded credentials\n" ++
  "- Unsafe file operations\n- Input validation issues\n\nList any security concerns found."

/-- Model of `CodeAnalyzer.get_ai_insights` (`analyzer.py` lines 143-162):
a collaborator exception is caught and replaced by a message string. -/
def get_ai_insights (gen : String → Except String String) (code language : String) : String :=
  match gen (aiInsightsPrompt language code) with
  | .ok r => r
  | .error e => "AI analysis failed: " ++ e

/-- Model of `CodeAnalyzer.get_improvement_suggestions` (lines 164-183). -/
def get_improvement_suggestions (gen : String → Except String String)
    (code language : String) : String :=
  match gen (improvementPrompt language code) with
  | .ok r => r
  | .error e => "Improvement analysis failed: " ++ e

/-- Model of `CodeAnalyzer.generate_documentation` (lines 185-204). -/
def generate_documentation (gen : String → Except String String)
    (code language : String) : String :=
  match gen (documentationPrompt language code) with
  | .ok r => r
  | .error e => "Documentation generation failed: " ++ e

/-- Static security pattern table (`analyzer.py` lines 213-222). -/
def security_patterns : List (String × String) :=
  [("eval", "Use of eval() can be dangerous"),
   ("exec", "Use of exec() can be dangerous"),
   ("os.system", "Use of os.system() can be vulnerable to injection"),
   ("subprocess.call", "Check subprocess.call() for injection vulnerabilities"),
   ("pickle.loads", "Pickle deserialization can be dangerous"),
   ("yaml.load", "Use yaml.safe_load() instead of yaml.load()"),
   ("shell=True", "subprocess with shell=True can be vulnerable"),
   ("input(", "raw_input/input can be dangerous in Python 2")]

/-- Static pass of the security scan (lines 209-226): for Python only,
substring containment of each pattern, in table order. -/
def staticSecurityFindings (code language : String) : List String :=
  if language = "python" then
    security_patterns.filterMap (fun p => if strContains code p.1 then some p.2 else none)
  else []

/-- Model of `CodeAnalyzer.scan_security_issues` (`analyzer.py` lines
206-252): static findings, then one AI finding appended unless the
returned text contains the literal marker; a collaborator exception is
swallowed (`except Exception: pass`). -/
def scan_security_issues (gen : String → Except String String)
    (code language : String) : List String :=
  let issues := staticSecurityFindings code language
  match gen (securityPrompt language code) with
  | .ok ai =>
    if strContains ai "No security issues" then issues
    else issues ++ ["AI Security Analysis: " ++ ai]
  | .error _ => issues

/-! Single-file analysis (`analyzer.py` lines 31-72) -/

/-- Caller-supplied flags bundle of `analyze_file` / `analyze_directory`. -/
structure AnalyzerFlags : Type where
  deep_analysis : Bool
  generate_docs : Bool
  security_scan : Bool
deriving Repr, DecidableEq

/-- One filesystem file as the pipeline sees it: its path, its `stat` size
and the outcome of `file_path.read_text(encoding='utf-8')`
(`Except.error e` models the read raising an exception with text `e`,
e.g. a permission error). -/
structure PyFile : Type where
  path : String
  file_size : Nat
  read_result : Except String String

/-- The report dictionary built by a successful run of
`CodeAnalyzer.analyze_file` (`analyzer.py` lines 38-69), in insertion
order: the four initial fields, the three analysis results, the syntax
flag, then each flag-controlled optional field. -/
def reportFields (gen : String → Except String String) (f : PyFile)
    (flags : AnalyzerFlags) (code language : String)
    (complexity : ComplexityMetrics) (imports : List String)
    (functions : List PyFunc) (sv : Bool × Option String) :
    List (String × RVal) :=
  [("file_path", RVal.str f.path), ("language", RVal.str language),
   ("file_size", RVal.nat f.file_size),
   ("line_count", RVal.nat (pySplitLines code).length),
   ("complexity", RVal.metrics complexity), ("imports", RVal.strList imports),
   ("functions", RVal.funcList functions), ("syntax_valid", RVal.bool sv.1)]
  ++ (if sv.1 then []
      else [("syntax_error", match sv.2 with
             | some m => RVal.str m
             | none => RVal.pynone)])
  ++ (if flags.deep_analysis then
        [("ai_insights", RVal.str (get_ai_insights gen code language)),
         ("improvement_suggestions", RVal.str (get_improvement_suggestions gen code language))]
      else [])
  ++ (if flags.generate_docs then
        [("generated_docs", RVal.str (generate_documentation gen code language))]
      else [])
  ++ (if flags.security_scan then
        [("security_issues", RVal.strList (scan_security_issues gen code language))]
      else [])

/-- Body of the `try` block of `CodeAnalyzer.analyze_file` (`analyzer.py`
lines 34-69): read, detect language, run the four unconditional analyses
in source order, then build the report.  The first raised exception
short-circuits the whole sequence (`Except.error`). -/
def analyze_fileE (gen : String → Except String String)
    (parse : String → ParseOutcome) (f : PyFile) (flags : AnalyzerFlags) :
    Except String (List (String × RVal)) :=
  match f.read_result with
  | .error e => .error e
  | .ok code =>
    let language := detect_language f.path
    match estimate_complexity parse code language with
    | .error e => .error e
    | .ok complexity =>
      match extract_imports parse code language with
      | .error e => .error e
      | .ok imports =>
        match find_functions parse code language with
        | .error e => .error e
        | .ok functions =>
          match validateSyntax parse code language with
          | .error e => .error e
          | .ok sv =>
            .ok (reportFields gen f flags code language complexity imports functions sv)

/-- Model of `CodeAnalyzer.analyze_file` (`analyzer.py` lines 31-72): the
whole body is wrapped in `try/except Exception`, so any fault yields
exactly the error record `{error, file_path}`. -/
def analyze_file (gen : String → Except String String)
    (parse : String → ParseOutcome) (f : PyFile) (flags : AnalyzerFlags) :
    List (String × RVal) :=
  match analyze_fileE gen parse f flags with
  | .ok fields => fields
  | .error e => [("error", RVal.str e), ("file_path", RVal.str f.path)]

/-! Directory aggregation (`analyzer.py` lines 99-141) -/

/-- Python dict update `languages[lang] = languages.get(lang, 0) + 1` on
an insertion-ordered association list. -/
def updateCount : List (String × Nat) → String → List (String × Nat)
  | [], t => [(t, 1)]
  | (k, v) :: rest, t =>
    if k = t then (k, v + 1) :: rest else (k, v) :: updateCount rest t

/-- First-match lookup in the language histogram (0 when absent). -/
def lookupCount (h : List (String × Nat)) (t : String) : Nat :=
  match List.lookup t h with
  | some n => n
  | none => 0

/-- Accumulator of the directory loop (`analyzer.py` lines 104-111):
the report list and the four running summary quantities. -/
structure DirAcc : Type where
  reports : List (List (String × RVal))
  total_files : Nat
  total_lines : Nat
  languages : List (String × Nat)
  issues : List String

/-- One iteration of the loop body (`analyzer.py` lines 116-127) for a
file that passed the `is_code_file` filter.  `analyze_file` catches every
`Exception` internally (its `try` encloses the read), so the
`except` clause at lines 129-130 is unreachable for per-file faults and
the body always appends a report and counts the file. -/
def dirStep (gen : String → Except String String) (parse : String → ParseOutcome)
    (flags : AnalyzerFlags) (acc : DirAcc) (f : PyFile) : DirAcc :=
  let fr := analyze_file gen parse f flags
  { reports := acc.reports ++ [fr]
    total_files := acc.total_files + 1
    total_lines := acc.total_lines + dictGetNat fr "line_count" 0
    languages := updateCount acc.languages (dictGetStr fr "language" "unknown")
    issues :=
      if dictGetBool fr "syntax_valid" true then acc.issues
      else acc.issues ++ [f.path ++ ": " ++ dictGetStr fr "syntax_error" "Syntax error"] }

structure DirSummary : Type where
  total_files : Nat
  total_lines : Nat
  languages : List (String × Nat)
  issues_found : Nat
  issues : List String
deriving Repr, DecidableEq

structure DirReport : Type where
  directory_path : String
  files_analyzed : List (List (String × RVal))
  summary : DirSummary
deriving Repr, DecidableEq

/-- Model of `CodeAnalyzer.analyze_directory` (`analyzer.py` lines
99-141): `entries` is the `rglob('*')` enumeration restricted to regular
files, in traversal order; those passing `is_code_file` are analyzed in
order and accumulated. -/
def analyze_directory (gen : String → Except String String)
    (parse : String → ParseOutcome) (dir_path : String) (entries : List PyFile)
    (flags : AnalyzerFlags) : DirReport :=
  let acc := (entries.filter (fun f => is_code_file f.path)).foldl
    (dirStep gen parse flags) ⟨[], 0, 0, [], []⟩
  { directory_path := dir_path
    files_analyzed := acc.reports
    summary := ⟨acc.total_files, acc.total_lines, acc.languages,
                acc.issues.length, acc.issues⟩ }

/-! Helper lemmas: report dictionaries -/

theorem lookup_cons_self {β : Type} (k : String) (v : β) (t : List (String × β)) :
    List.lookup k ((k, v) :: t) = some v := by
  simp [List.lookup]

theorem lookup_cons_ne {β : Type} {k a : String} (h : ¬ k = a) (v : β) (t : List (String × β)) :
    List.lookup k ((a, v) :: t) = List.lookup k t := by
  have hb : (k == a) = false := beq_false_of_ne h
  simp [List.lookup, hb]

theorem reportFields_lookup_error (gen : String → Except String String) (f : PyFile)
    (flags : AnalyzerFlags) (code language : String) (cm : ComplexityMetrics)
    (im : List String) (fn : List PyFunc) (sv : Bool × Option String) :
    List.lookup "error" (reportFields gen f flags code language cm im fn sv) = none := by
  unfold reportFields
  repeat' split
  all_goals rfl

theorem reportFields_lookup_file_path (gen : String → Except String String) (f : PyFile)
    (flags : AnalyzerFlags) (code language : String) (cm : ComplexityMetrics)
    (im : List String) (fn : List PyFunc) (sv : Bool × Option String) :
    List.lookup "file_path" (reportFields gen f flags code language cm im fn sv)
      = some (RVal.str f.path) := by
  unfold reportFields
  repeat' split
  all_goals rfl

theorem reportFields_lookup_language (gen : String → Except String String) (f : PyFile)
    (flags : AnalyzerFlags) (code language : String) (cm : ComplexityMetrics)
    (im : List String) (fn : List PyFunc) (sv : Bool × Option String) :
    List.lookup "language" (reportFields gen f flags code language cm im fn sv)
      = some (RVal.str language) := by
  unfold reportFields
  repeat' split
  all_goals rfl

theorem reportFields_lookup_file_size (gen : String → Except String String) (f : PyFile)
    (flags : AnalyzerFlags) (code language : String) (cm : ComplexityMetrics)
    (im : List String) (fn : List PyFunc) (sv : Bool × Option String) :
    List.lookup "file_size" (reportFields gen f flags code language cm im fn sv)
      = some (RVal.nat f.file_size) := by
  unfold reportFields
  repeat' split
  all_goals rfl

theorem reportFields_lookup_line_count (gen : String → Except String String) (f : PyFile)
    (flags : AnalyzerFlags) (code language : String) (cm : ComplexityMetrics)
    (im : List String) (fn : List PyFunc) (sv : Bool × Option String) :
    List.lookup "line_count" (reportFields gen f flags code language cm im fn sv)
      = some (RVal.nat (pySplitLines code).length) := by
  unfold reportFields
  repeat' split
  all_goals rfl

theorem reportFields_lookup_complexity (gen : String → Except String String) (f : PyFile)
    (flags : AnalyzerFlags) (code language : String) (cm : ComplexityMetrics)
    (im : List String) (fn : List PyFunc) (sv : Bool × Option String) :
    List.lookup "complexity" (reportFields gen f flags code language cm im fn sv)
      = some (RVal.metrics cm) := by
  unfold reportFields
  repeat' split
  all_goals rfl

theorem reportFields_lookup_imports (gen : String → Except String String) (f : PyFile)
    (flags : AnalyzerFlags) (code language : String) (cm : ComplexityMetrics)
    (im : List String) (fn : List PyFunc) (sv : Bool × Option String) :
    List.lookup "imports" (reportFields gen f flags code language cm im fn sv)
      = some (RVal.strList im) := by
  unfold reportFields
  repeat' split
  all_goals rfl

theorem reportFields_lookup_functions (gen : String → Except String String) (f : PyFile)
    (flags : AnalyzerFlags) (code language : String) (cm : ComplexityMetrics)
    (im : List String) (fn : List PyFunc) (sv : Bool × Option String) :
    List.lookup "functions" (reportFields gen f flags code language cm im fn sv)
      = some (RVal.funcList fn) := by
  unfold reportFields
  repeat' split
  all_goals rfl

theorem reportFields_lookup_syntax_valid (gen : String → Except String String) (f : PyFile)
    (flags : AnalyzerFlags) (code language : String) (cm : ComplexityMetrics)
    (im : List String) (fn : List PyFunc) (sv : Bool × Option String) :
    List.lookup "syntax_valid" (reportFields gen f flags code language cm im fn sv)
      = some (RVal.bool sv.1) := by
  unfold reportFields
  repeat' split
  all_goals rfl

theorem reportFields_lookup_security (gen : String → Except String String) (f : PyFile)
    (flags : AnalyzerFlags) (code language : String) (cm : ComplexityMetrics)
    (im : List String) (fn : List PyFunc) (sv : Bool × Option String)
    (hsec : flags.security_scan = true) :
    List.lookup "security_issues" (reportFields gen f flags code language cm im fn sv)
      = some (RVal.strList (scan_security_issues gen code language)) := by
  unfold reportFields
  rw [hsec]
  repeat' split
  all_goals first | rfl | simp_all

theorem reportFields_lookup_ai_insights (gen : String → Except String String) (f : PyFile)
    (flags : AnalyzerFlags) (code language : String) (cm : ComplexityMetrics)
    (im : List String) (fn : List PyFunc) (sv : Bool × Option String)
    (hdeep : flags.deep_analysis = true) :
    List.lookup "ai_insights" (reportFields gen f flags code language cm im fn sv)
      = some (RVal.str (get_ai_insights gen code language)) := by
  unfold reportFields
  rw [hdeep]
  repeat' split
  all_goals first | rfl | simp_all

theorem reportFields_lookup_generated_docs (gen : String → Except String String) (f : PyFile)
    (flags : AnalyzerFlags) (code language : String) (cm : ComplexityMetrics)
    (im : List String) (fn : List PyFunc) (sv : Bool × Option String)
    (hdocs : flags.generate_docs = true) :
    List.lookup "generated_docs" (reportFields gen f flags code language cm im fn sv)
      = some (RVal.str (generate_documentation gen code language)) := by
  unfold reportFields
  rw [hdocs]
  repeat' split
  all_goals first | rfl | simp_all

/-! Helper lemmas: outcomes of `analyze_file` -/

theorem analyze_file_shape (gen : String → Except String String)
    (parse : String → ParseOutcome) (f : PyFile) (flags : AnalyzerFlags) :
    (∃ e, analyze_fileE gen parse f flags = .error e ∧
      analyze_file gen parse f flags = [("error", RVal.str e), ("file_path", RVal.str f.path)]) ∨
    (∃ code cm im fn sv, f.read_result = .ok code ∧
      analyze_file gen parse f flags =
        reportFields gen f flags code (detect_language f.path) cm im fn sv) := by
  unfold analyze_file analyze_fileE
  dsimp only
  rcases hr : f.read_result with e | code
  · exact .inl ⟨e, rfl, rfl⟩
  · dsimp only
    rcases hc : estimate_complexity parse code (detect_language f.path) with e | cm
    · exact .inl ⟨e, rfl, rfl⟩
    · dsimp only
      rcases hi : extract_imports parse code (detect_language f.path) with e | im
      · exact .inl ⟨e, rfl, rfl⟩
      · dsimp only
        rcases hf : find_functions parse code (detect_language f.path) with e | fn
        · exact .inl ⟨e, rfl, rfl⟩
        · dsimp only
          rcases hv : validateSyntax parse code (detect_language f.path) with e | sv
          · exact .inl ⟨e, rfl, rfl⟩
          · exact .inr ⟨code, cm, im, fn, sv, rfl, rfl⟩

theorem analyze_file_read_error (gen : String → Except String String)
    (parse : String → ParseOutcome) (f : PyFile) (flags : AnalyzerFlags)
    (e : String) (h : f.read_result = .error e) :
    analyze_file gen parse f flags = [("error", RVal.str e), ("file_path", RVal.str f.path)] := by
  unfold analyze_file analyze_fileE
  rw [h]

/-! Helper lemmas: the four analyses succeed whenever the parser does not
crash (i.e. raises nothing, or raises only `SyntaxError`) -/

theorem find_functions_ok (parse : String → ParseOutcome) (code language : String)
    (h : ∀ e, parse code ≠ .hardError e) :
    ∃ l, find_functions parse code language = .ok l := by
  unfold find_functions findPythonFunctions
  split
  · rcases hpc : parse code with t | m | e
    · exact ⟨_, rfl⟩
    · exact ⟨_, rfl⟩
    · exact absurd hpc (h e)
  · exact ⟨[], rfl⟩

theorem extract_imports_ok (parse : String → ParseOutcome) (code language : String)
    (h : ∀ e, parse code ≠ .hardError e) :
    ∃ l, extract_imports parse code language = .ok l := by
  unfold extract_imports extractPythonImports
  split
  · rcases hpc : parse code with t | m | e
    · exact ⟨_, rfl⟩
    · exact ⟨_, rfl⟩
    · exact absurd hpc (h e)
  · split
    · exact ⟨_, rfl⟩
    · exact ⟨[], rfl⟩

theorem validateSyntax_ok (parse : String → ParseOutcome) (code language : String)
    (h : ∀ e, parse code ≠ .hardError e) :
    ∃ sv, validateSyntax parse code language = .ok sv := by
  unfold validateSyntax
  split
  · rcases hpc : parse code with t | m | e
    · exact ⟨_, rfl⟩
    · exact ⟨_, rfl⟩
    · exact absurd hpc (h e)
  · exact ⟨_, rfl⟩

theorem estimate_complexity_ok (parse : String → ParseOutcome) (code language : String)
    (h : ∀ e, parse code ≠ .hardError e) :
    ∃ m, estimate_complexity parse code language = .ok m := by
  unfold estimate_complexity
  rcases find_functions_ok parse code language h with ⟨l, hl⟩
  rw [hl]
  exact ⟨_, rfl⟩

/-- Whenever the file reads successfully and the parser does not crash on
its text, `analyze_fileE` succeeds and the report is a full one. -/
theorem analyze_fileE_ok_of_no_crash (gen : String → Except String String)
    (parse : String → ParseOutcome) (f : PyFile) (flags : AnalyzerFlags)
    (code : String) (hread : f.read_result = .ok code)
    (hparse : ∀ e, parse code ≠ .hardError e) :
    ∃ cm im fn sv, analyze_file gen parse f flags =
      reportFields gen f flags code (detect_language f.path) cm im fn sv := by
  unfold analyze_file analyze_fileE
  rw [hread]
  dsimp only
  rcases estimate_complexity_ok parse code (detect_language f.path) hparse with ⟨cm, hcm⟩
  rcases extract_imports_ok parse code (detect_language f.path) hparse with ⟨im, him⟩
  rcases find_functions_ok parse code (detect_language f.path) hparse with ⟨fn, hfn⟩
  rcases validateSyntax_ok parse code (detect_language f.path) hparse with ⟨sv, hsv⟩
  rw [hcm, him, hfn, hsv]
  exact ⟨cm, im, fn, sv, rfl⟩

/-- With a collaborator that always raises, the security scan returns
exactly the static findings (`except Exception: pass`). -/
theorem scan_security_issues_failing_gen (msg code language : String) :
    scan_security_issues (fun _ => .error msg) code language
      = staticSecurityFindings code language := rfl

/-! Helper lemmas: decomposition of the directory fold -/

/-- The issue strings one analyzed file contributes
(`analyzer.py` lines 126-127). -/
def dirIssueOf (gen : String → Except String String) (parse : String → ParseOutcome)
    (flags : AnalyzerFlags) (f : PyFile) : List String :=
  let fr := analyze_file gen parse f flags
  if dictGetBool fr "syntax_valid" true then []
  else [f.path ++ ": " ++ dictGetStr fr "syntax_error" "Syntax error"]

theorem dirStep_issues (gen : String → Except String String) (parse : String → ParseOutcome)
    (flags : AnalyzerFlags) (acc : DirAcc) (f : PyFile) :
    (dirStep gen parse flags acc f).issues = acc.issues ++ dirIssueOf gen parse flags f := by
  unfold dirStep dirIssueOf
  dsimp only
  split
  · simp
  · simp

theorem foldl_dirStep_reports (gen : String → Except String String)
    (parse : String → ParseOutcome) (flags : AnalyzerFlags) (l : List PyFile) (acc : DirAcc) :
    (l.foldl (dirStep gen parse flags) acc).reports
      = acc.reports ++ l.map (fun f => analyze_file gen parse f flags) := by
  induction l generalizing acc with
  | nil => simp
  | cons f rest ih =>
    simp only [List.foldl_cons, ih, List.map_cons]
    unfold dirStep
    simp

theorem foldl_dirStep_total_files (gen : String → Except String String)
    (parse : String → ParseOutcome) (flags : AnalyzerFlags) (l : List PyFile) (acc : DirAcc) :
    (l.foldl (dirStep gen parse flags) acc).total_files = acc.total_files + l.length := by
  induction l generalizing acc with
  | nil => simp
  | cons f rest ih =>
    simp only [List.foldl_cons, ih, List.length_cons]
    unfold dirStep
    dsimp only
    omega

theorem foldl_dirStep_total_lines (gen : String → Except String String)
    (parse : String → ParseOutcome) (flags : AnalyzerFlags) (l : List PyFile) (acc : DirAcc) :
    (l.foldl (dirStep gen parse flags) acc).total_lines
      = acc.total_lines
        + (l.map (fun f => dictGetNat (analyze_file gen parse f flags) "line_count" 0)).sum := by
  induction l generalizing acc with
  | nil => simp
  | cons f rest ih =>
    simp only [List.foldl_cons, ih, List.map_cons, List.sum_cons]
    unfold dirStep
    dsimp only
    omega

theorem foldl_dirStep_issues (gen : String → Except String String)
    (parse : String → ParseOutcome) (flags : AnalyzerFlags) (l : List PyFile) (acc : DirAcc) :
    (l.foldl (dirStep gen parse flags) acc).issues
      = acc.issues ++ l.flatMap (dirIssueOf gen parse flags) := by
  induction l generalizing acc with
  | nil => simp
  | cons f rest ih =>
    simp only [List.foldl_cons, ih, List.flatMap_cons, dirStep_issues]
    simp

theorem foldl_dirStep_languages (gen : String → Except String String)
    (parse : String → ParseOutcome) (flags : AnalyzerFlags) (l : List PyFile) (acc : DirAcc) :
    (l.foldl (dirStep gen parse flags) acc).languages
      = l.foldl
          (fun h f => updateCount h (dictGetStr (analyze_file gen parse f flags) "language" "unknown"))
          acc.languages := by
  induction l generalizing acc with
  | nil => simp
  | cons f rest ih =>
    simp only [List.foldl_cons, ih]
    rfl

/-! Helper lemmas: the language histogram -/

theorem lookupCount_updateCount_self (h : List (String × Nat)) (t : String) :
    lookupCount (updateCount h t) t = lookupCount h t + 1 := by
  induction h with
  | nil => simp [updateCount, lookupCount, List.lookup]
  | cons p rest ih =>
    rcases p with ⟨k, v⟩
    unfold updateCount
    by_cases hk : k = t
    · subst hk
      simp [lookupCount, lookup_cons_self]
    · rw [if_neg hk]
      unfold lookupCount
      rw [lookup_cons_ne (fun he => hk he.symm), lookup_cons_ne (fun he => hk he.symm)]
      exact ih

theorem lookupCount_updateCount_ne (h : List (String × Nat)) {t s : String} (hts : t ≠ s) :
    lookupCount (updateCount h t) s = lookupCount h s := by
  have hst : ¬ s = t := fun he => hts he.symm
  induction h with
  | nil =>
    unfold updateCount lookupCount
    rw [lookup_cons_ne hst]
  | cons p rest ih =>
    rcases p with ⟨k, v⟩
    unfold updateCount
    by_cases hk : k = t
    · subst hk
      rw [if_pos rfl]
      unfold lookupCount
      rw [lookup_cons_ne hst, lookup_cons_ne hst]
    · rw [if_neg hk]
      by_cases hsk : s = k
      · subst hsk
        unfold lookupCount
        rw [lookup_cons_self, lookup_cons_self]
      · unfold lookupCount
        rw [lookup_cons_ne hsk, lookup_cons_ne hsk]
        exact ih

theorem lookupCount_foldl_updateCount {α : Type} (tag : α → String) (l : List α)
    (h : List (String × Nat)) (s : String) :
    lookupCount (l.foldl (fun acc x => updateCount acc (tag x)) h) s
      = lookupCount h s + (l.filter (fun x => tag x == s)).length := by
  induction l generalizing h with
  | nil => simp
  | cons x rest ih =>
    simp only [List.foldl_cons, ih, List.filter_cons]
    by_cases hx : tag x = s
    · subst hx
      rw [lookupCount_updateCount_self]
      simp
      omega
    · have hb : (tag x == s) = false := beq_false_of_ne hx
      rw [lookupCount_updateCount_ne h hx]
      simp [hb]

/-! Helper lemmas: how the aggregation loop treats an error record -/

theorem dictGetNat_errRecord (e p : String) :
    dictGetNat [("error", RVal.str e), ("file_path", RVal.str p)] "line_count" 0 = 0 := rfl

theorem dictGetStr_errRecord_language (e p : String) :
    dictGetStr [("error", RVal.str e), ("file_path", RVal.str p)] "language" "unknown"
      = "unknown" := rfl

theorem dictGetBool_errRecord_syntax_valid (e p : String) :
    dictGetBool [("error", RVal.str e), ("file_path", RVal.str p)] "syntax_valid" true
      = true := rfl

/-- Processing a file whose read raised: the loop appends the error
record, counts the file, adds `0` lines, tags it `"unknown"`, and appends
no issue (the error record has no `syntax_valid` key, so
`fr.get('syntax_valid', True)` is `True`). -/
theorem dirStep_read_error (gen : String → Except String String)
    (parse : String → ParseOutcome) (flags : AnalyzerFlags) (acc : DirAcc)
    (f : PyFile) (e : String) (h : f.read_result = .error e) :
    dirStep gen parse flags acc f =
      { reports := acc.reports ++ [[("error", RVal.str e), ("file_path", RVal.str f.path)]]
        total_files := acc.total_files + 1
        total_lines := acc.total_lines
        languages := updateCount acc.languages "unknown"
        issues := acc.issues } := by
  unfold dirStep
  rw [analyze_file_read_error gen parse f flags e h]
  rfl

/-! Helper lemmas: breadth-first walk of import-only modules -/

theorem walkBFS_nil (n : Nat) : walkBFS n [] = [] := by
  cases n <;> rfl

theorem flatMap_childStmts_eq_nil (l : List PyStmt) (h : ∀ s ∈ l, childStmts s = []) :
    l.flatMap childStmts = [] := by
  induction l with
  | nil => rfl
  | cons s rest ih =>
    rw [List.flatMap_cons, h s (List.mem_cons_self s rest), List.nil_append]
    exact ih (fun x hx => h x (List.mem_cons_of_mem s hx))

theorem walkBFS_no_children (n : Nat) (l : List PyStmt) (hn : 1 ≤ n)
    (h : ∀ s ∈ l, childStmts s = []) : walkBFS n l = l := by
  rcases n with _ | n
  · omega
  · rcases l with _ | ⟨s, rest⟩
    · rfl
    · unfold walkBFS
      rw [flatMap_childStmts_eq_nil _ h, walkBFS_nil, List.append_nil]

/-! Helper lemmas: line numbers produced by the fallback function scan -/

theorem fallbackFunctionsAux_line_bound (ls : List String) (i : Nat) (g : PyFunc)
    (hg : g ∈ fallbackFunctionsAux i ls) : i ≤ g.line ∧ g.line < i + ls.length := by
  induction ls generalizing i with
  | nil => cases hg
  | cons line rest ih =>
    unfold fallbackFunctionsAux at hg
    rcases List.mem_append.mp hg with hhead | htail
    · rcases hm : matchDefPattern (pyStrip line) with _ | gr
      · rw [hm] at hhead
        cases hhead
      · rw [hm] at hhead
        rcases List.mem_singleton.mp hhead with rfl
        simp only [List.length_cons]
        omega
    · rcases ih (i + 1) htail with ⟨h1, h2⟩
      simp only [List.length_cons]
      omega

/-! Claim theorems -/

/-- C2: for every file path and every flags bundle, single-file analysis
returns exactly one of two shapes — either exactly the error record
`{error, file_path}` with no other fields, or a full report carrying the
mandatory fields and no `error` key; never a mixture of error and partial
success. -/
theorem c2_report_shape_dichotomy (gen : String → Except String String)
    (parse : String → ParseOutcome) (f : PyFile) (flags : AnalyzerFlags) :
    (∃ e, analyze_file gen parse f flags
        = [("error", RVal.str e), ("file_path", RVal.str f.path)]) ∨
    (List.lookup "error" (analyze_file gen parse f flags) = none ∧
     List.lookup "file_path" (analyze_file gen parse f flags) = some (RVal.str f.path) ∧
     List.lookup "file_size" (analyze_file gen parse f flags) = some (RVal.nat f.file_size) ∧
     (∃ l, List.lookup "language" (analyze_file gen parse f flags) = some (RVal.str l)) ∧
     (∃ n, List.lookup "line_count" (analyze_file gen parse f flags) = some (RVal.nat n)) ∧
     (∃ m, List.lookup "complexity" (analyze_file gen parse f flags) = some (RVal.metrics m)) ∧
     (∃ l, List.lookup "imports" (analyze_file gen parse f flags) = some (RVal.strList l)) ∧
     (∃ l, List.lookup "functions" (analyze_file gen parse f flags) = some (RVal.funcList l)) ∧
     (∃ b, List.lookup "syntax_valid" (analyze_file gen parse f flags) = some (RVal.bool b))) := by
  rcases analyze_file_shape gen parse f flags with ⟨e, _, hrep⟩ | ⟨code, cm, im, fn, sv, _, hrep⟩
  · exact .inl ⟨e, hrep⟩
  · refine .inr ?_
    rw [hrep]
    exact ⟨reportFields_lookup_error gen f flags code _ cm im fn sv,
      reportFields_lookup_file_path gen f flags code _ cm im fn sv,
      reportFields_lookup_file_size gen f flags code _ cm im fn sv,
      ⟨_, reportFields_lookup_language gen f flags code _ cm im fn sv⟩,
      ⟨_, reportFields_lookup_line_count gen f flags code _ cm im fn sv⟩,
      ⟨cm, reportFields_lookup_complexity gen f flags code _ cm im fn sv⟩,
      ⟨im, reportFields_lookup_imports gen f flags code _ cm im fn sv⟩,
      ⟨fn, reportFields_lookup_functions gen f flags code _ cm im fn sv⟩,
      ⟨sv.1, reportFields_lookup_syntax_valid gen f flags code _ cm im fn sv⟩⟩

/-- C3: for every directory aggregation run, `total_files` equals the
length of the `files_analyzed` list, and the report list is exactly one
report per allow-listed file, in traversal order, whether its analysis
succeeded or produced an error record. -/
theorem c3_total_files_eq_reports (gen : String → Except String String)
    (parse : String → ParseOutcome) (d : String) (entries : List PyFile)
    (flags : AnalyzerFlags) :
    (analyze_directory gen parse d entries flags).summary.total_files
      = (analyze_directory gen parse d entries flags).files_analyzed.length ∧
    (analyze_directory gen parse d entries flags).files_analyzed
      = (entries.filter (fun f => is_code_file f.path)).map
          (fun f => analyze_file gen parse f flags) := by
  unfold analyze_directory
  dsimp only
  constructor
  · rw [foldl_dirStep_total_files, foldl_dirStep_reports]
    simp
  · rw [foldl_dirStep_reports]
    simp

theorem dirIssueOf_read_error (gen : String → Except String String)
    (parse : String → ParseOutcome) (flags : AnalyzerFlags) (f : PyFile) (e : String)
    (h : f.read_result = .error e) : dirIssueOf gen parse flags f = [] := by
  unfold dirIssueOf
  rw [analyze_file_read_error gen parse f flags e h]
  rfl

/-! Sample inputs for counterexamples and witnesses -/

def samplePermError : String := "PermissionError: [Errno 13] Permission denied"

/-- A file the analyzer cannot read (its `read_text` raises). -/
def sampleBadFile : PyFile := ⟨"/d/bad.py", 0, .error samplePermError⟩

/-- A readable one-line Python file. -/
def sampleOkFile : PyFile := ⟨"/d/ok.py", 9, .ok "import os"⟩

/-- The parse outcome of `ast.parse("import os")`: a module with one
`Import` node on line 1. -/
def sampleParse : String → ParseOutcome := fun _ => .ok ⟨[.imprt 1 ["os"]]⟩

/-- A collaborator whose every call raises. -/
def sampleGen : String → Except String String := fun _ => .error "generator offline"

def sampleFlags : AnalyzerFlags := ⟨false, false, false⟩

/-- C1 (counterexample): in a directory holding an unreadable `.py` file
and a readable sibling, the summary's issues list is empty — the
read-raising file produces NO issue entry (its error record lacks the
`syntax_valid` key, so the loop's syntax check passes), refuting the
claim that it "produces an issue entry in the summary's issues list";
the sibling is still analyzed and both files are counted. -/
theorem c1_counterexample :
    (analyze_directory sampleGen sampleParse "/d" [sampleBadFile, sampleOkFile]
        sampleFlags).summary.issues = [] ∧
    (analyze_directory sampleGen sampleParse "/d" [sampleBadFile, sampleOkFile]
        sampleFlags).summary.total_files = 2 ∧
    (analyze_directory sampleGen sampleParse "/d" [sampleBadFile, sampleOkFile]
        sampleFlags).files_analyzed.head?
      = some [("error", RVal.str samplePermError), ("file_path", RVal.str "/d/bad.py")] ∧
    (analyze_directory sampleGen sampleParse "/d" [sampleBadFile, sampleOkFile]
        sampleFlags).files_analyzed.length = 2 := by
  decide

/-- C1 (amended): a file in the allow-list whose read raises produces an
error-record report (not an issue entry), does not prevent any sibling
file from being analyzed and reported, and is still counted in
`total_files`; the issues list is exactly what it would be without the
failing file. -/
theorem c1_read_error_isolated (gen : String → Except String String)
    (parse : String → ParseOutcome) (d : String) (pre post : List PyFile)
    (f : PyFile) (e : String) (flags : AnalyzerFlags)
    (hread : f.read_result = .error e) (hcode : is_code_file f.path = true) :
    (analyze_directory gen parse d (pre ++ f :: post) flags).summary.total_files
      = (pre.filter (fun x => is_code_file x.path)).length + 1
        + (post.filter (fun x => is_code_file x.path)).length ∧
    (analyze_directory gen parse d (pre ++ f :: post) flags).files_analyzed
      = (pre.filter (fun x => is_code_file x.path)).map (fun x => analyze_file gen parse x flags)
        ++ [("error", RVal.str e), ("file_path", RVal.str f.path)]
          :: (post.filter (fun x => is_code_file x.path)).map
               (fun x => analyze_file gen parse x flags) ∧
    (analyze_directory gen parse d (pre ++ f :: post) flags).summary.issues
      = (analyze_directory gen parse d (pre ++ post) flags).summary.issues := by
  have hfe := analyze_file_read_error gen parse f flags e hread
  have hfil : (pre ++ f :: post).filter (fun x => is_code_file x.path)
      = pre.filter (fun x => is_code_file x.path) ++ f :: post.filter (fun x => is_code_file x.path) := by
    simp [List.filter_append, List.filter_cons, hcode]
  have hfil' : (pre ++ post).filter (fun x => is_code_file x.path)
      = pre.filter (fun x => is_code_file x.path) ++ post.filter (fun x => is_code_file x.path) := by
    simp [List.filter_append]
  unfold analyze_directory
  dsimp only
  rw [hfil, hfil']
  refine ⟨?_, ?_, ?_⟩
  · rw [foldl_dirStep_total_files]
    simp only [List.length_append, List.length_cons]
    omega
  · rw [foldl_dirStep_reports]
    simp only [List.map_append, List.map_cons, List.nil_append, hfe]
  · rw [foldl_dirStep_issues, foldl_dirStep_issues]
    simp only [List.flatMap_append, List.flatMap_cons, List.nil_append]
    rw [dirIssueOf_read_error gen parse flags f e hread]
    simp

/-- C1 (witness): the amended theorem applied to the sample directory:
the unreadable file leaves the issues list exactly as it is without it. -/
theorem c1_witness :
    sampleBadFile.read_result = .error samplePermError ∧
    is_code_file sampleBadFile.path = true ∧
    (analyze_directory sampleGen sampleParse "/d" ([sampleOkFile] ++ sampleBadFile :: [])
        sampleFlags).summary.issues
      = (analyze_directory sampleGen sampleParse "/d" ([sampleOkFile] ++ [])
          sampleFlags).summary.issues :=
  ⟨rfl, rfl,
    (c1_read_error_isolated sampleGen sampleParse "/d" [sampleOkFile] [] sampleBadFile
      samplePermError sampleFlags rfl rfl).2.2⟩

/-- C10: a file whose per-file analysis returns the error record is still
accumulated by directory aggregation: its error record appears among the
reports, it is counted under `"unknown"` in the language histogram, it
contributes 0 to `total_lines`, and it adds no entry to the issues list
(the error record has no `syntax_valid` field, so the syntax-issue check
treats it as valid). -/
theorem c10_error_record_accumulation (gen : String → Except String String)
    (parse : String → ParseOutcome) (d : String) (pre post : List PyFile)
    (f : PyFile) (e : String) (flags : AnalyzerFlags)
    (hread : f.read_result = .error e) (hcode : is_code_file f.path = true) :
    [("error", RVal.str e), ("file_path", RVal.str f.path)]
        ∈ (analyze_directory gen parse d (pre ++ f :: post) flags).files_analyzed ∧
    lookupCount (analyze_directory gen parse d (pre ++ f :: post) flags).summary.languages
        "unknown"
      = lookupCount (analyze_directory gen parse d (pre ++ post) flags).summary.languages
          "unknown" + 1 ∧
    (analyze_directory gen parse d (pre ++ f :: post) flags).summary.total_lines
      = (analyze_directory gen parse d (pre ++ post) flags).summary.total_lines ∧
    (analyze_directory gen parse d (pre ++ f :: post) flags).summary.issues
      = (analyze_directory gen parse d (pre ++ post) flags).summary.issues := by
  have hfe := analyze_file_read_error gen parse f flags e hread
  have htag : dictGetStr (analyze_file gen parse f flags) "language" "unknown" = "unknown" := by
    rw [hfe]
    rfl
  have hfil : (pre ++ f :: post).filter (fun x => is_code_file x.path)
      = pre.filter (fun x => is_code_file x.path) ++ f :: post.filter (fun x => is_code_file x.path) := by
    simp [List.filter_append, List.filter_cons, hcode]
  have hfil' : (pre ++ post).filter (fun x => is_code_file x.path)
      = pre.filter (fun x => is_code_file x.path) ++ post.filter (fun x => is_code_file x.path) := by
    simp [List.filter_append]
  unfold analyze_directory
  dsimp only
  rw [hfil, hfil']
  refine ⟨?_, ?_, ?_, ?_⟩
  · rw [foldl_dirStep_reports]
    simp only [List.map_append, List.map_cons, List.nil_append, hfe]
    exact List.mem_append.mpr (.inr (List.mem_cons_self _ _))
  · rw [foldl_dirStep_languages, foldl_dirStep_languages,
      lookupCount_foldl_updateCount, lookupCount_foldl_updateCount]
    simp only [List.filter_append, List.filter_cons, htag]
    simp [List.length_append]
    omega
  · rw [foldl_dirStep_total_lines, foldl_dirStep_total_lines]
    simp only [List.map_append, List.map_cons, List.sum_append, List.sum_cons, hfe,
      dictGetNat_errRecord]
    omega
  · rw [foldl_dirStep_issues, foldl_dirStep_issues]
    simp only [List.flatMap_append, List.flatMap_cons, List.nil_append]
    rw [dirIssueOf_read_error gen parse flags f e hread]
    simp

/-- C10 (witness): in the sample directory, the unreadable file's error
record is reported, and it bumps exactly the `"unknown"` histogram count. -/
theorem c10_witness :
    [("error", RVal.str samplePermError), ("file_path", RVal.str "/d/bad.py")]
      ∈ (analyze_directory sampleGen sampleParse "/d" ([] ++ sampleBadFile :: [sampleOkFile])
          sampleFlags).files_analyzed ∧
    lookupCount (analyze_directory sampleGen sampleParse "/d"
        ([] ++ sampleBadFile :: [sampleOkFile]) sampleFlags).summary.languages "unknown"
      = lookupCount (analyze_directory sampleGen sampleParse "/d" ([] ++ [sampleOkFile])
          sampleFlags).summary.languages "unknown" + 1 := by
  have h := c10_error_record_accumulation sampleGen sampleParse "/d" [] [sampleOkFile]
    sampleBadFile samplePermError sampleFlags rfl rfl
  exact ⟨h.1, h.2.1⟩

/-- C4 (counterexample): the extractors catch only `SyntaxError`
(`code_tools.py` lines 82, 137); a parser exception that is not a
`SyntaxError` — CPython's `ast.parse` can raise `RecursionError` on
deeply nested input (a documented limitation of the `ast` module), or
`ValueError` for null bytes on interpreters before 3.12 — propagates out
of both extractors instead of triggering the fallback. -/
theorem c4_counterexample :
    extractPythonImports
        (fun _ => ParseOutcome.hardError "RecursionError: maximum recursion depth exceeded")
        "((((" = .error "RecursionError: maximum recursion depth exceeded" ∧
    findPythonFunctions
        (fun _ => ParseOutcome.hardError "RecursionError: maximum recursion depth exceeded")
        "((((" = .error "RecursionError: maximum recursion depth exceeded" :=
  ⟨rfl, rfl⟩

/-- C4 (amended): for every input string on which the structural parser
either succeeds or raises an ordinary `SyntaxError`, import extraction and
function extraction never raise — the `SyntaxError` is converted into the
pattern-based fallback — and for non-Structured languages the extractors
are total (pattern-based or empty); but a parser exception other than
`SyntaxError` is not caught at the strategy boundary and propagates. -/
theorem c4_no_raise_without_parser_crash (parse : String → ParseOutcome) (code : String)
    (h : ∀ e, parse code ≠ .hardError e) :
    (∃ l, extractPythonImports parse code = .ok l) ∧
    (∃ l, findPythonFunctions parse code = .ok l) ∧
    (∀ language, language ≠ "python" → find_functions parse code language = .ok []) ∧
    (∀ language, language ≠ "python" → language ≠ "javascript" → language ≠ "typescript" →
      extract_imports parse code language = .ok []) ∧
    (extract_imports parse code "javascript" = .ok (extractJsImports code) ∧
     extract_imports parse code "typescript" = .ok (extractJsImports code)) := by
  refine ⟨?_, ?_, ?_, ?_, rfl, rfl⟩
  · unfold extractPythonImports
    rcases hpc : parse code with t | m | e
    · exact ⟨_, rfl⟩
    · exact ⟨_, rfl⟩
    · exact absurd hpc (h e)
  · unfold findPythonFunctions
    rcases hpc : parse code with t | m | e
    · exact ⟨_, rfl⟩
    · exact ⟨_, rfl⟩
    · exact absurd hpc (h e)
  · intro language hl
    unfold find_functions
    rw [if_neg hl]
  · intro language h1 h2 h3
    unfold extract_imports
    rw [if_neg h1, if_neg (by simp [h2, h3])]

/-- C4 (witness): with a parser raising a `SyntaxError` on a broken
definition, both extractors return without raising. -/
theorem c4_witness :
    (∀ e, (fun _ : String => ParseOutcome.synError "invalid syntax") "def f(:"
        ≠ ParseOutcome.hardError e) ∧
    (∃ l, extractPythonImports (fun _ : String => ParseOutcome.synError "invalid syntax")
        "def f(:" = .ok l) ∧
    (∃ l, findPythonFunctions (fun _ : String => ParseOutcome.synError "invalid syntax")
        "def f(:" = .ok l) := by
  have hp : ∀ e, (fun _ : String => ParseOutcome.synError "invalid syntax") "def f(:"
      ≠ ParseOutcome.hardError e := fun e he => ParseOutcome.noConfusion he
  have h := c4_no_raise_without_parser_crash
    (fun _ : String => ParseOutcome.synError "invalid syntax") "def f(:" hp
  exact ⟨hp, h.1, h.2.1⟩

/-- C5: for every source text and flags bundle, whenever the external
text-generation collaborator raises during an optional pass (AI insight,
documentation, or security augmentation), the fault is swallowed and the
analysis still returns a full (non-error) report; for the security pass
no finding beyond the static pattern findings is added, and the optional
text fields carry the caught-exception placeholder strings. -/
theorem c5_collaborator_failure_swallowed (parse : String → ParseOutcome)
    (f : PyFile) (flags : AnalyzerFlags) (code msg : String)
    (hread : f.read_result = .ok code) (hparse : ∀ e, parse code ≠ .hardError e) :
    List.lookup "error" (analyze_file (fun _ => .error msg) parse f flags) = none ∧
    List.lookup "file_path" (analyze_file (fun _ => .error msg) parse f flags)
      = some (RVal.str f.path) ∧
    (flags.security_scan = true →
      List.lookup "security_issues" (analyze_file (fun _ => .error msg) parse f flags)
        = some (RVal.strList (staticSecurityFindings code (detect_language f.path)))) ∧
    (flags.deep_analysis = true →
      List.lookup "ai_insights" (analyze_file (fun _ => .error msg) parse f flags)
        = some (RVal.str ("AI analysis failed: " ++ msg))) ∧
    (flags.generate_docs = true →
      List.lookup "generated_docs" (analyze_file (fun _ => .error msg) parse f flags)
        = some (RVal.str ("Documentation generation failed: " ++ msg))) := by
  rcases analyze_fileE_ok_of_no_crash (fun _ => .error msg) parse f flags code hread hparse
    with ⟨cm, im, fn, sv, hrep⟩
  rw [hrep]
  refine ⟨reportFields_lookup_error _ _ _ _ _ cm im fn sv,
    reportFields_lookup_file_path _ _ _ _ _ cm im fn sv, fun hs => ?_, fun hd => ?_, fun hg => ?_⟩
  · rw [reportFields_lookup_security _ _ _ _ _ cm im fn sv hs,
      scan_security_issues_failing_gen]
  · rw [reportFields_lookup_ai_insights _ _ _ _ _ cm im fn sv hd]
    rfl
  · rw [reportFields_lookup_generated_docs _ _ _ _ _ cm im fn sv hg]
    rfl

/-- C5 (witness): analyzing the sample file with an always-raising
collaborator and all optional passes enabled yields a full report whose
security findings are exactly the static ones. -/
theorem c5_witness :
    List.lookup "error"
      (analyze_file (fun _ => Except.error "boom") sampleParse sampleOkFile
        ⟨true, true, true⟩) = none ∧
    List.lookup "security_issues"
      (analyze_file (fun _ => Except.error "boom") sampleParse sampleOkFile
        ⟨true, true, true⟩)
      = some (RVal.strList (staticSecurityFindings "import os" (detect_language "/d/ok.py"))) := by
  have h := c5_collaborator_failure_swallowed sampleParse sampleOkFile ⟨true, true, true⟩
    "import os" "boom" rfl (fun e he => ParseOutcome.noConfusion he)
  exact ⟨h.1, h.2.2.1 rfl⟩

/-! Concrete inputs for the import- and function-extraction claims -/

def c6text : String := "import os\nfrom sys import path"

/-- The parse outcome of `ast.parse(c6text)`: an `Import` node on line 1
and an `ImportFrom` node on line 2. -/
def c6tree : PyModule := ⟨[.imprt 1 ["os"], .importFrom 2 (some "sys") ["path"]]⟩

def c6nestedText : String := "def f():\n    import zzz\nimport aaa"

/-- The parse outcome of `ast.parse(c6nestedText)`: a `FunctionDef` on
line 1 whose body holds an `Import` of `zzz` on line 2, followed by a
top-level `Import` of `aaa` on line 3. -/
def c6nestedTree : PyModule := ⟨[.funcDef 1 "f" [] none [.imprt 2 ["zzz"]], .imprt 3 ["aaa"]]⟩

/-- C6 (counterexample): extraction walks the tree with `ast.walk`, which
is breadth-first, so the import of `zzz` — which appears FIRST in the
source (line 2, nested in a function body) — is emitted AFTER the
top-level import of `aaa` (line 3): the output order is not the order of
appearance in the source. -/
theorem c6_counterexample :
    extract_imports (fun _ => ParseOutcome.ok c6nestedTree) c6nestedText "python"
      = .ok ["import aaa", "import zzz"] ∧
    ["import aaa", "import zzz"] ≠ ["import zzz", "import aaa"] :=
  ⟨rfl, by decide⟩

/-- C6 (amended): import extraction on
`"import os\nfrom sys import path"` returns exactly
`["import os", "from sys import path"]`; imports are collected in
breadth-first tree order without deduplication, which equals order of
appearance for modules whose statements have no nested bodies (in
particular when all imports are top-level), but not for imports nested
inside definitions. -/
theorem c6_import_extraction :
    (∀ parse : String → ParseOutcome, parse c6text = .ok c6tree →
      extract_imports parse c6text "python" = .ok ["import os", "from sys import path"]) ∧
    (∀ body : List PyStmt, (∀ s ∈ body, childStmts s = []) →
      importsOfTree ⟨body⟩ = body.flatMap importsOfStmt) ∧
    importsOfTree ⟨[.imprt 1 ["os"], .imprt 2 ["os"]]⟩ = ["import os", "import os"] := by
  refine ⟨?_, ?_, rfl⟩
  · intro parse hp
    unfold extract_imports extractPythonImports
    rw [if_pos rfl, hp]
    rfl
  · intro body h
    unfold importsOfTree walkModule
    rw [walkBFS_no_children _ _ (by omega) h]

/-- C6 (witness): the concrete extraction applied through a parser that
returns the tree of the two-line import text. -/
theorem c6_witness :
    extract_imports (fun _ => ParseOutcome.ok c6tree) c6text "python"
      = .ok ["import os", "from sys import path"] :=
  (c6_import_extraction).1 (fun _ => ParseOutcome.ok c6tree) rfl

/-- C7 (counterexample): on the one-line source `"#"`, `code_lines = 0`
but `comment_lines = 1`, so `comment_ratio = 1/max(0,1) = 1 ≠ 0` — the
claim's parenthetical "code_lines = 0 implies ratio 0" fails (it holds
for empty input, not for comment-only input). -/
theorem c7_counterexample :
    estimate_complexity sampleParse "#" "text" = .ok ⟨1, 0, 1, 0, 1⟩ ∧ ((1 : ℚ) ≠ 0) := by
  constructor
  · have hf : find_functions sampleParse "#" "text" = .ok [] := rfl
    have hcode : ((pySplitLines "#").filter isCodeLine).length = 0 := rfl
    have hcom : ((pySplitLines "#").filter isCommentLine).length = 1 := rfl
    have hlen : (pySplitLines "#").length = 1 := rfl
    unfold estimate_complexity
    rw [hf]
    dsimp only
    rw [hcode, hcom, hlen]
    simp only [Except.ok.injEq, ComplexityMetrics.mk.injEq]
    norm_num
  · norm_num

/-- C7 (amended): for every source text, complexity estimation (when the
function extractor does not propagate a parser crash) returns
`total_lines` equal to the number of segments after splitting on line
breaks, `comment_lines` counting lines whose trimmed form starts with
`'#'`, `code_lines` counting non-blank non-comment lines, and
`comment_ratio = comment_lines / max(code_lines, 1)` with a never-zero
denominator; for the empty string, `total_lines = 1`, `code_lines = 0`
and the ratio is `0`. -/
theorem c7_complexity_metrics (parse : String → ParseOutcome)
    (code language : String) (m : ComplexityMetrics)
    (h : estimate_complexity parse code language = .ok m) :
    m.total_lines = (pySplitLines code).length ∧
    m.comment_lines = ((pySplitLines code).filter isCommentLine).length ∧
    m.code_lines = ((pySplitLines code).filter isCodeLine).length ∧
    m.comment_ratio = (m.comment_lines : ℚ) / (max m.code_lines 1 : ℚ) ∧
    0 < max m.code_lines 1 ∧
    (code = "" → m.total_lines = 1 ∧ m.code_lines = 0 ∧ m.comment_ratio = 0) := by
  unfold estimate_complexity at h
  rcases hf : find_functions parse code language with e | fns
  · rw [hf] at h
    cases h
  · rw [hf] at h
    injection h with h'
    subst h'
    refine ⟨rfl, rfl, rfl, rfl, by omega, ?_⟩
    intro hc
    subst hc
    have h0 : ((pySplitLines "").filter isCodeLine).length = 0 := rfl
    have h1 : ((pySplitLines "").filter isCommentLine).length = 0 := rfl
    refine ⟨rfl, h0, ?_⟩
    show (((pySplitLines "").filter isCommentLine).length : ℚ)
        / (max ((pySplitLines "").filter isCodeLine).length 1 : ℚ) = 0
    rw [h0, h1]
    norm_num

/-- C7 (witness): the amended theorem applied to the empty source. -/
theorem c7_witness :
    estimate_complexity sampleParse "" "text" = .ok ⟨1, 0, 0, 0, 0⟩ ∧
    (⟨1, 0, 0, 0, 0⟩ : ComplexityMetrics).comment_ratio
      = ((⟨1, 0, 0, 0, 0⟩ : ComplexityMetrics).comment_lines : ℚ)
        / (max (⟨1, 0, 0, 0, 0⟩ : ComplexityMetrics).code_lines 1 : ℚ) := by
  have h : estimate_complexity sampleParse "" "text" = .ok ⟨1, 0, 0, 0, 0⟩ := by
    have hf : find_functions sampleParse "" "text" = .ok [] := rfl
    have hcode : ((pySplitLines "").filter isCodeLine).length = 0 := rfl
    have hcom : ((pySplitLines "").filter isCommentLine).length = 0 := rfl
    have hlen : (pySplitLines "").length = 1 := rfl
    unfold estimate_complexity
    rw [hf]
    dsimp only
    rw [hcode, hcom, hlen]
    simp only [Except.ok.injEq, ComplexityMetrics.mk.injEq]
    norm_num
  exact ⟨h, (c7_complexity_metrics sampleParse "" "text" _ h).2.2.2.1⟩

/-- C8: for every source text, syntax validation of the
Structured-capability language (`python`) returns `(true, none)` exactly
when the structural parse succeeds and `(false, diagnostic)` exactly when
it raises a `SyntaxError`, so among returned results the error descriptor
is present iff the result is invalid; every other language gets
`(true, none)` unconditionally. -/
theorem c8_validate_iff (parse : String → ParseOutcome) (code : String) :
    (validateSyntax parse code "python" = .ok (true, none) ↔ ∃ t, parse code = .ok t) ∧
    (∀ m, validateSyntax parse code "python" = .ok (false, some m)
      ↔ parse code = .synError m) ∧
    (∀ v err, validateSyntax parse code "python" = .ok (v, err) → (err = none ↔ v = true)) ∧
    (∀ language, language ≠ "python" → validateSyntax parse code language = .ok (true, none)) := by
  refine ⟨?_, ?_, ?_, ?_⟩
  · rcases hpc : parse code with t | m | e <;> simp [validateSyntax, hpc]
  · intro m
    rcases hpc : parse code with t | m' | e <;> simp [validateSyntax, hpc]
  · intro v err hv
    unfold validateSyntax at hv
    rw [if_pos rfl] at hv
    rcases hpc : parse code with t | m' | e <;> rw [hpc] at hv <;> dsimp only at hv
    · injection hv with h
      cases h
      simp
    · injection hv with h
      cases h
      simp
    · cases hv
  · intro language hl
    unfold validateSyntax
    rw [if_neg hl]

/-- C8 (witness): with a parser raising `SyntaxError "bad"` on the text
`"("`, validation returns `(false, some "bad")`, by the iff of the claim
theorem. -/
theorem c8_witness :
    validateSyntax (fun _ => ParseOutcome.synError "bad") "(" "python"
      = .ok (false, some "bad") :=
  ((c8_validate_iff (fun _ => ParseOutcome.synError "bad") "(").2.1 "bad").mpr rfl

/-! Concrete input for the function-extraction claim -/

def c9code : String := "# math helpers\ndef add(a, b):\n    return a + b\n\n# end"

/-- The parse outcome of `ast.parse(c9code)`: one `FunctionDef` named
`add` on line 2 with positional parameters `a`, `b`, no docstring, and a
one-statement body on line 3. -/
def c9tree : PyModule := ⟨[.funcDef 2 "add" ["a", "b"] none [.other 3]]⟩

/-- C9: function extraction on the 5-line file containing
`def add(a, b):` on line 2 returns one descriptor with name `"add"`,
1-based line 2 and parameters `["a", "b"]`; and for every input whose
parse tree reports line numbers within the file (CPython guarantees each
node's `lineno` points into the source), every returned descriptor's line
number lies within `[1, total_lines]` — unconditionally so for the
pattern fallback. -/
theorem c9_find_functions :
    (∀ parse : String → ParseOutcome, parse c9code = .ok c9tree →
      find_functions parse c9code "python" = .ok [⟨"add", 2, ["a", "b"], none⟩]) ∧
    (∀ (parse : String → ParseOutcome) (code : String) (fs : List PyFunc),
      (∀ t, parse code = .ok t →
        ∀ g ∈ functionsOfTree t, 1 ≤ g.line ∧ g.line ≤ (pySplitLines code).length) →
      find_functions parse code "python" = .ok fs →
      ∀ g ∈ fs, 1 ≤ g.line ∧ g.line ≤ (pySplitLines code).length) := by
  constructor
  · intro parse hp
    unfold find_functions findPythonFunctions
    rw [if_pos rfl, hp]
    rfl
  · intro parse code fs hwf hfs g hg
    unfold find_functions findPythonFunctions at hfs
    rw [if_pos rfl] at hfs
    rcases hpc : parse code with t | m | e <;> rw [hpc] at hfs <;> dsimp only at hfs
    · injection hfs with h
      subst h
      exact hwf t hpc g hg
    · injection hfs with h
      subst h
      unfold fallbackFunctions at hg
      have hb := fallbackFunctionsAux_line_bound (pySplitLines code) 1 g hg
      omega
    · cases hfs

/-- C9 (witness): the concrete extraction, and the bound checked at the
returned descriptor. -/
theorem c9_witness :
    find_functions (fun _ => ParseOutcome.ok c9tree) c9code "python"
      = .ok [⟨"add", 2, ["a", "b"], none⟩] ∧
    (1 ≤ (⟨"add", 2, ["a", "b"], none⟩ : PyFunc).line ∧
     (⟨"add", 2, ["a", "b"], none⟩ : PyFunc).line ≤ (pySplitLines c9code).length) := by
  have h1 := (c9_find_functions).1 (fun _ => ParseOutcome.ok c9tree) rfl
  have hwf : ∀ t, (fun _ : String => ParseOutcome.ok c9tree) c9code = .ok t →
      ∀ g ∈ functionsOfTree t, 1 ≤ g.line ∧ g.line ≤ (pySplitLines c9code).length := by
    intro t ht g hg
    injection ht with ht'
    subst ht'
    have hft : functionsOfTree c9tree = [⟨"add", 2, ["a", "b"], none⟩] := rfl
    rw [hft] at hg
    have hlen : (pySplitLines c9code).length = 5 := rfl
    rcases List.mem_singleton.mp hg with rfl
    rw [hlen]
    exact ⟨by norm_num, by norm_num⟩
  exact ⟨h1, (c9_find_functions).2 (fun _ => ParseOutcome.ok c9tree) c9code _ hwf h1
    ⟨"add", 2, ["a", "b"], none⟩ (List.mem_singleton.mpr rfl)⟩
